import Mathlib

/-!
The mbed Device Connector client of `source/main.cpp`.

A shallow embedding of the class `MbedClient` and of `app_start`, followed by
the properties of the registration session, the animation chain and the
execute payload decoding.

Conventions of the embedding.

* A member function becomes a function from the client record to the new
  client record and the list of calls it makes on its collaborators
  (`Effect`), in program order.
* A pointer is an `Option`; a member function that dereferences a null pointer
  or reads past its argument buffer returns `none`.
* `int8_t`, `int16_t` and `int` values are integers, reduced into their range
  with `toInt8`, `toInt16` and `toInt32` at every conversion of the source.
* Time is counted in milliseconds.
-/

namespace MbedConnector

/-! ## Machine integers -/

/-- The value of `x` after conversion to `int8_t`. -/
def toInt8 (x : Int) : Int := (x + 128) % 256 - 128

/-- The value of `x` after conversion to `int16_t`. -/
def toInt16 (x : Int) : Int := (x + 32768) % 65536 - 32768

/-- The value of `x` after conversion to `int`. -/
def toInt32 (x : Int) : Int := (x + 2147483648) % 4294967296 - 2147483648

/-- The value of `x` after conversion to `uint16_t`. -/
def toUInt16 (x : Int) : Int := x % 65536

/-! ## Collaborator types (mbed-client, security.h) -/

/-- The error kinds of `M2MInterface::Error` that `MbedClient::error` names in
its `switch`, and `unlisted` for any other enumerator value, which takes the
`default` branch. -/
inductive Error where
  | AlreadyExists
  | BootstrapFailed
  | InvalidParameters
  | NotRegistered
  | Timeout
  | NetworkError
  | ResponseParseFailed
  | UnknownError
  | MemoryFail
  | NotAllowed
  | unlisted (code : Nat)
deriving DecidableEq, Repr

/-- The ten kinds named in the `switch` of `MbedClient::error`. -/
def Error.listed : Error → Bool
  | .unlisted _ => false
  | _ => true

/-- The identifier of an enumerator, as written in the source. -/
def Error.ident : Error → String
  | .AlreadyExists => "AlreadyExists"
  | .BootstrapFailed => "BootstrapFailed"
  | .InvalidParameters => "InvalidParameters"
  | .NotRegistered => "NotRegistered"
  | .Timeout => "Timeout"
  | .NetworkError => "NetworkError"
  | .ResponseParseFailed => "ResponseParseFailed"
  | .UnknownError => "UnknownError"
  | .MemoryFail => "MemoryFail"
  | .NotAllowed => "NotAllowed"
  | .unlisted _ => ""

/-- The binding modes the source selects between (`SOCKET_MODE`). -/
inductive BindingMode where
  | UDP
  | TCP
deriving DecidableEq, Repr

/-- The network stack passed to the interface factory. -/
inductive NetworkStack where
  | LwIP_IPv4
deriving DecidableEq, Repr

/-- The constants main.cpp takes from `security.h`. -/
structure SecurityH where
  MBED_DOMAIN : String
  MBED_ENDPOINT_NAME : String
  SERVER_CERT : List Nat
  CERT : List Nat
  KEY : List Nat
deriving DecidableEq, Repr

/-- The interface object, as the record of the arguments it was created with. -/
structure M2MInterface where
  endpoint_name : String
  endpoint_type : String
  life_time : Int
  listen_port : Int
  domain : String
  mode : BindingMode
  stack : NetworkStack
  context_address : String
deriving DecidableEq, Repr

/-- The security mode set on the register object. -/
inductive SecurityMode where
  | Certificate
deriving DecidableEq, Repr

/-- The register server object (security context), as the record of the
resource values set on it. -/
structure M2MSecurity where
  M2MServerUri : String
  SecurityMode : SecurityMode
  ServerPublicKey : List Nat
  PublicKey : List Nat
  Secretkey : List Nat
deriving DecidableEq, Repr

/-- Allowed operations of a resource that the source sets. -/
inductive Operation where
  | NOT_ALLOWED
  | GET_PUT_ALLOWED
  | POST_ALLOWED
deriving DecidableEq, Repr

/-- Value types of a dynamic resource that the source uses. -/
inductive ResourceType where
  | STRING
  | INTEGER
  | BOOLEAN
deriving DecidableEq, Repr

/-- The member functions bound as execute functions. -/
inductive ExecuteFunction where
  | execute_disco
deriving DecidableEq, Repr

/-- A resource of an object instance. -/
structure M2MResource where
  name : String
  resource_type : String
  type : ResourceType
  observable : Bool
  operation : Operation
  value : String
  execute_function : Option ExecuteFunction
deriving DecidableEq, Repr

/-- An object instance: its resources in creation order. -/
structure M2MObjectInstance where
  resources : List M2MResource
deriving DecidableEq, Repr

/-- The result of `inst->resource(name)`: the first resource of that name, or null. -/
def M2MObjectInstance.resource (inst : M2MObjectInstance) (name : String) :
    Option M2MResource :=
  inst.resources.find? (fun r => r.name == name)

/-- The instance after `inst->resource(name)->set_value(v)`. -/
def M2MObjectInstance.set_value (inst : M2MObjectInstance) (name : String) (v : String) :
    M2MObjectInstance :=
  { resources := inst.resources.map (fun r => if r.name == name then { r with value := v } else r) }

/-- An object with its (at most one, here) object instance. -/
structure M2MObject where
  name : String
  object_instance : Option M2MObjectInstance
deriving DecidableEq, Repr

/-- The list of object pointers handed to `register_object`. -/
abbrev M2MObjectList := List (Option M2MObject)

/-! ## Calls on collaborators -/

/-- The three indicator outputs. -/
inductive Led where
  | red
  | green
  | blue
deriving DecidableEq, Repr

/-- The member functions that the source posts to the scheduler, with their
bound arguments. -/
inductive Callback where
  | disco (turns_left : Int) (delay_ms : Int)
  | test_register (register_object : Option M2MSecurity) (object_list : M2MObjectList)
  | test_update_register
deriving DecidableEq, Repr

/-- The handlers attached to the falling edge of a button. -/
inductive Handler where
  | test_unregister
  | update_resource
deriving DecidableEq, Repr

/-- The two buttons. -/
inductive Button where
  | obs_button
  | unreg_button
deriving DecidableEq, Repr

/-- A call made on a collaborator. -/
inductive Effect where
  /-- Text written with `output.printf`. -/
  | printf (text : String)
  /-- Assignment to one of the `DigitalOut` indicators. -/
  | digital_out (led : Led) (value : Bool)
  /-- The call `minar::Scheduler::postCallback(cb)` with the `.delay(ms)` or
  `.period(ms)` that follows it. -/
  | postCallback (cb : Callback) (delay : Option Int) (period : Option Int)
  /-- The call `minar::Scheduler::stop()`. -/
  | scheduler_stop
  /-- The call `notify_completion(success)`. -/
  | notify_completion (success : Bool)
  /-- The call `_interface->register_object(register_object, object_list)`. -/
  | register_object (register_object : Option M2MSecurity) (object_list : M2MObjectList)
  /-- The call `_interface->unregister_object(NULL)`. -/
  | unregister_object
  /-- The call `_interface->update_registration(security, lifetime)`. -/
  | update_registration (security : Option M2MSecurity) (lifetime : Int)
  /-- The call `button.fall(&mbed_client, handler)`. -/
  | fall (button : Button) (handler : Handler)
  /-- The calls `trace_init()`, `output.baud(rate)` and `eth.init()`. -/
  | trace_init
  | baud (rate : Nat)
  | eth_init
deriving DecidableEq, Repr

/-- A request to the management-protocol collaborator. -/
def Effect.isRequest : Effect → Bool
  | .register_object _ _ => true
  | .unregister_object => true
  | .update_registration _ _ => true
  | _ => false

/-- A call on the scheduler. -/
def Effect.isScheduler : Effect → Bool
  | .postCallback _ _ _ => true
  | .scheduler_stop => true
  | _ => false

/-! ## The class `MbedClient` -/

/-- The private fields of `MbedClient`. -/
structure MbedClient where
  _interface : Option M2MInterface
  _register_security : Option M2MSecurity
  _object : Option M2MObject
  _bootstrapped : Bool
  _error : Bool
  _registered : Bool
  _unregistered : Bool
  _value : Int
deriving DecidableEq, Repr

namespace MbedClient

/-- The constructor `MbedClient()`. -/
def new : MbedClient :=
  { _interface := none
    _bootstrapped := false
    _error := false
    _registered := false
    _unregistered := false
    _register_security := none
    _value := 0
    _object := none }

/-- The member `trace_printer(str)`. -/
def trace_printer (str : String) : List Effect :=
  [Effect.printf ("\r\n" ++ str ++ "\r\n")]

/-- The member `create_interface()`. `rand` is the value returned by `rand()`
and `created` tells whether the factory returned an interface rather than
null. -/
def create_interface (c : MbedClient) (cfg : SecurityH) (mode : BindingMode)
    (rand : Nat) (created : Bool) : MbedClient × List Effect :=
  let port := toUInt16 (rand % 65535 + 12345)
  let made : M2MInterface :=
    { endpoint_name := cfg.MBED_ENDPOINT_NAME
      endpoint_type := "test"
      life_time := 3600
      listen_port := port
      domain := cfg.MBED_DOMAIN
      mode := mode
      stack := NetworkStack.LwIP_IPv4
      context_address := "" }
  ({ c with _interface := if created then some made else none }, [])

/-- The member `register_successful()`. -/
def register_successful (c : MbedClient) : Bool := c._registered

/-- The member `unregister_successful()`. -/
def unregister_successful (c : MbedClient) : Bool := c._unregistered

/-- The member `create_register_object()`; `created` tells whether the factory
returned a security object rather than null. -/
def create_register_object (cfg : SecurityH) (created : Bool) : Option M2MSecurity :=
  if created then
    some
      { M2MServerUri := "coap://api.connector.mbed.com:5684"
        SecurityMode := SecurityMode.Certificate
        ServerPublicKey := cfg.SERVER_CERT
        PublicKey := cfg.CERT
        Secretkey := cfg.KEY }
  else none

/-- A mandatory resource of the device object, created with a string value. -/
def device_resource (name value : String) : M2MResource :=
  { name := name
    resource_type := ""
    type := ResourceType.STRING
    observable := false
    operation := Operation.NOT_ALLOWED
    value := value
    execute_function := none }

/-- The member `create_device_object()`; `created` tells whether the factory
returned a device object rather than null. -/
def create_device_object (created : Bool) : Option M2MObject :=
  if created then
    some
      { name := "Device"
        object_instance := some
          { resources :=
              [ device_resource "Manufacturer" "manufacturer",
                device_resource "DeviceType" "type",
                device_resource "ModelNumber" "2015",
                device_resource "SerialNumber" "12345" ] } }
  else none

/-- The member `disco(turns_left, delay_ms)`: the post of the next frame when
the count is positive, then the three indicator assignments, computed from the
count after the decrement. `%` of the source truncates toward zero. -/
def disco (turns_left delay_ms : Int) : List Effect :=
  let left := if turns_left > 0 then toInt8 (turns_left - 1) else turns_left
  let posted :=
    if turns_left > 0 then
      [Effect.postCallback (Callback.disco left delay_ms) (some delay_ms) none]
    else []
  let m := Int.tmod left 6
  posted ++
    [ Effect.digital_out Led.red (decide (m = 0 ∨ m = 1 ∨ m = 2)),
      Effect.digital_out Led.green (decide (m = 2 ∨ m = 3 ∨ m = 4)),
      Effect.digital_out Led.blue (decide (m = 4 ∨ m = 5 ∨ m = 0)) ]

/-- The member `execute_disco(a_args)`. The payload is the list of the bytes
`a_args` points to, read through an `int8_t*`; a payload shorter than three
bytes is read past its end. `args[1] << 8` is the promoted value times 256,
and the sum is converted to `int16_t`. -/
def execute_disco (a_args : List Nat) : Option (List Effect) :=
  match a_args with
  | b0 :: b1 :: b2 :: _ =>
    let turns_left := toInt8 b0
    let delay_ms := toInt16 (toInt8 b1 * 256 + toInt8 b2)
    some
      (Effect.printf
          ("disco time turns=" ++ toString turns_left ++ " delay=" ++ toString delay_ms ++ "!\r\n")
        :: disco turns_left delay_ms)
  | _ => none

/-- The member `set_up_led(res, led)`: the resource becomes readable and
writable and takes the text of `!!led` as value. -/
def set_up_led (res : M2MResource) (led : Bool) : M2MResource :=
  { res with operation := Operation.GET_PUT_ALLOWED, value := if led then "1" else "0" }

/-- A dynamic resource as `create_dynamic_resource` makes it. -/
def create_dynamic_resource (name resource_type : String) (type : ResourceType)
    (observable : Bool) : M2MResource :=
  { name := name
    resource_type := resource_type
    type := type
    observable := observable
    operation := Operation.NOT_ALLOWED
    value := ""
    execute_function := none }

/-- The member `create_led_object()`; `red`, `green`, `blue` are the current
values of the indicators. The source uses the results of the factory calls
unchecked: `allocated` tells whether they all returned an object, and the
result is `none` when one of them returned null. -/
def create_led_object (red green blue : Bool) (allocated : Bool) : Option M2MObject :=
  if ¬ allocated then none else
  let res_red := create_dynamic_resource "Red" "5850" ResourceType.BOOLEAN false
  let res_green := create_dynamic_resource "Green" "5850" ResourceType.BOOLEAN false
  let res_blue := create_dynamic_resource "Blue" "5850" ResourceType.BOOLEAN false
  let disco := create_dynamic_resource "Disco" "function" ResourceType.INTEGER false
  let disco := { disco with operation := Operation.POST_ALLOWED }
  let disco := { disco with execute_function := some ExecuteFunction.execute_disco }
  some
    { name := "TriColorLED"
      object_instance := some
        { resources := [set_up_led res_red red, set_up_led res_green green,
            set_up_led res_blue blue, disco] } }

/-- The member `update_resource()`. -/
def update_resource (c : MbedClient) : Option (MbedClient × List Effect) :=
  match c._object with
  | none => some (c, [])
  | some obj =>
    let shown := Effect.printf ("updating resource to " ++ toString c._value ++ "\r\n")
    match obj.object_instance with
    | none => some (c, [shown])
    | some inst =>
      match inst.resource "D" with
      | none => none
      | some _ =>
        let buffer := toString c._value
        let obj1 : M2MObject := { obj with object_instance := some (inst.set_value "D" buffer) }
        some ({ c with _object := some obj1, _value := toInt32 (c._value + 1) }, [shown])

/-- The member `test_register(register_object, object_list)`. -/
def test_register (c : MbedClient) (register_object : Option M2MSecurity)
    (object_list : M2MObjectList) : MbedClient × List Effect :=
  match c._interface with
  | some _ => (c, [Effect.register_object register_object object_list])
  | none => (c, [])

/-- The member `test_unregister()`. -/
def test_unregister (c : MbedClient) : MbedClient × List Effect :=
  match c._interface with
  | some _ => (c, [Effect.unregister_object])
  | none => (c, [])

/-- The member `bootstrap_done(server_object)`. -/
def bootstrap_done (c : MbedClient) (server_object : Option M2MSecurity) :
    MbedClient × List Effect :=
  match server_object with
  | some _ => ({ c with _bootstrapped := true, _error := false }, trace_printer "\nBootstrapped\n")
  | none => (c, [])

/-- The member `object_registered(security_object, server_object)`. -/
def object_registered (c : MbedClient) : MbedClient × List Effect :=
  ({ c with _registered := true, _unregistered := false }, trace_printer "\nRegistered\n")

/-- The member `object_unregistered(server_object)`. -/
def object_unregistered (c : MbedClient) : MbedClient × List Effect :=
  let c1 := { c with _unregistered := true, _registered := false }
  (c1, [Effect.notify_completion c1._unregistered, Effect.scheduler_stop]
        ++ trace_printer "\nUnregistered\n")

/-- The member `registration_updated(security_object, server_object)`. -/
def registration_updated (c : MbedClient) : MbedClient × List Effect := (c, [])

/-- The member `error(error)`. -/
def error (c : MbedClient) (error : Error) : MbedClient × List Effect :=
  let c1 := { c with _error := true }
  match error with
  | .AlreadyExists => (c1, trace_printer "[ERROR:] M2MInterface::AlreadyExists\n")
  | .BootstrapFailed => (c1, trace_printer "[ERROR:] M2MInterface::BootstrapFailed\n")
  | .InvalidParameters => (c1, trace_printer "[ERROR:] M2MInterface::InvalidParameters\n")
  | .NotRegistered => (c1, trace_printer "[ERROR:] M2MInterface::NotRegistered\n")
  | .Timeout => (c1, trace_printer "[ERROR:] M2MInterface::Timeout\n")
  | .NetworkError => (c1, trace_printer "[ERROR:] M2MInterface::NetworkError\n")
  | .ResponseParseFailed => (c1, trace_printer "[ERROR:] M2MInterface::ResponseParseFailed\n")
  | .UnknownError => (c1, trace_printer "[ERROR:] M2MInterface::UnknownError\n")
  | .MemoryFail => (c1, trace_printer "[ERROR:] M2MInterface::MemoryFail\n")
  | .NotAllowed => (c1, trace_printer "[ERROR:] M2MInterface::NotAllowed\n")
  | .unlisted _ => (c1, [])

/-- The member `value_updated(base, type)`; `base` is the name of the object
`base` points to, `type` the numeric value of the base type. -/
def value_updated (c : MbedClient) (base : Option String) (type : Int) :
    Option (MbedClient × List Effect) :=
  match base with
  | none => none
  | some name =>
    some (c, [Effect.printf
      ("\nValue updated of Object name " ++ name ++ " and Type " ++ toString type ++ "\n")])

/-- The member `test_update_register()`. -/
def test_update_register (c : MbedClient) : Option (MbedClient × List Effect) :=
  if c._registered then
    match c._interface with
    | none => none
    | some _ => some (c, [Effect.update_registration c._register_security 3600])
  else some (c, [])

/-- The member `set_register_object(register_object)`. -/
def set_register_object (c : MbedClient) (register_object : Option M2MSecurity) :
    MbedClient × List Effect :=
  match c._register_security with
  | none => ({ c with _register_security := register_object }, [])
  | some _ => (c, [])

end MbedClient

/-! ## Sequences of operations on the client -/

/-- The operations and observer notifications of `MbedClient`, with their
arguments. -/
inductive Op where
  | create_interface (cfg : SecurityH) (mode : BindingMode) (rand : Nat) (created : Bool)
  | disco (turns_left : Int) (delay_ms : Int)
  | execute_disco (a_args : List Nat)
  | update_resource
  | test_register (register_object : Option M2MSecurity) (object_list : M2MObjectList)
  | test_unregister
  | bootstrap_done (server_object : Option M2MSecurity)
  | object_registered
  | object_unregistered
  | registration_updated
  | error (error : Error)
  | value_updated (base : Option String) (type : Int)
  | test_update_register
  | set_register_object (register_object : Option M2MSecurity)
deriving DecidableEq, Repr

/-- One operation on the client: the new client and the calls made, or `none`
when the member function dereferences null or reads past its payload. -/
def step (c : MbedClient) : Op → Option (MbedClient × List Effect)
  | .create_interface cfg mode rand created => some (c.create_interface cfg mode rand created)
  | .disco turns_left delay_ms => some (c, MbedClient.disco turns_left delay_ms)
  | .execute_disco a_args => (MbedClient.execute_disco a_args).map (fun effs => (c, effs))
  | .update_resource => c.update_resource
  | .test_register register_object object_list =>
    some (c.test_register register_object object_list)
  | .test_unregister => some c.test_unregister
  | .bootstrap_done server_object => some (c.bootstrap_done server_object)
  | .object_registered => some c.object_registered
  | .object_unregistered => some c.object_unregistered
  | .registration_updated => some c.registration_updated
  | .error e => some (c.error e)
  | .value_updated base type => c.value_updated base type
  | .test_update_register => c.test_update_register
  | .set_register_object register_object => some (c.set_register_object register_object)

/-- The operation a posted callback performs when the scheduler invokes it. -/
def Callback.op : Callback → Op
  | .disco turns_left delay_ms => Op.disco turns_left delay_ms
  | .test_register register_object object_list => Op.test_register register_object object_list
  | .test_update_register => Op.test_update_register

/-- The client states that a freshly constructed client reaches through the
operations of the class. -/
inductive Reachable : MbedClient → Prop where
  | new : Reachable MbedClient.new
  | step {c c1 : MbedClient} {effs : List Effect} (op : Op) :
      Reachable c → step c op = some (c1, effs) → Reachable c1

/-- The observer notifications: the callbacks of `M2MInterfaceObserver`. The
client hands itself out as observer in one place only, the factory call of
`create_interface`, so only an interface that has been created invokes them. -/
def Op.isNotification : Op → Bool
  | .bootstrap_done _ => true
  | .object_registered => true
  | .object_unregistered => true
  | .registration_updated => true
  | .error _ => true
  | .value_updated _ _ => true
  | _ => false

/-- The operation `create_interface`, which `app_start` calls once, on the
freshly constructed client. -/
def Op.isCreate : Op → Bool
  | .create_interface _ _ _ _ => true
  | _ => false

/-- The session states the program can be in: those a freshly constructed
client reaches through the members of the class when an observer notification
is delivered only by a created interface, and `create_interface` is called
only while no interface exists. -/
inductive Receivable : MbedClient → Prop where
  | new : Receivable MbedClient.new
  | step {c c1 : MbedClient} {effs : List Effect} (op : Op) :
      Receivable c →
      (op.isNotification = true → c._interface ≠ none) →
      (op.isCreate = true → c._interface = none) →
      step c op = some (c1, effs) → Receivable c1

/-! ## The scheduler -/

/-- A pending task: due time, callback with its bound arguments, and the
period when it is periodic. -/
structure Task where
  due : Nat
  cb : Callback
  period : Option Nat
deriving DecidableEq, Repr

/-- Modelled from the spec: the state of the minar scheduler, which main.cpp
only calls. It holds the current time, the pending tasks in posting order and
whether `stop()` has been invoked. -/
structure Scheduler where
  now : Nat
  pending : List Task
  stopped : Bool
deriving DecidableEq, Repr

/-- Modelled from the spec: `post(callback, delay)` and
`post_periodic(callback, period)` of the minar scheduler. A callback posted
with neither is due at once, one posted with a delay is due `delay` from now,
and a periodic one is first due after one period. -/
def Scheduler.post (s : Scheduler) (cb : Callback) (delay period : Option Int) : Scheduler :=
  let after : Nat :=
    match delay, period with
    | some d, _ => d.toNat
    | none, some p => p.toNat
    | none, none => 0
  { s with pending := s.pending ++ [{ due := s.now + after, cb := cb, period := period.map Int.toNat }] }

/-- Modelled from the spec: `stop()` of the minar scheduler. The pending tasks
are left as they are. -/
def Scheduler.stop (s : Scheduler) : Scheduler := { s with stopped := true }

/-- Modelled from the spec: the ordering guarantee of the minar scheduler. The
task to run next is the one with the earliest due time, the one posted first
among equals. -/
def earliest : List Task → Option Task
  | [] => none
  | t :: ts =>
    match earliest ts with
    | none => some t
    | some u => if t.due ≤ u.due then some t else some u

/-! ## The program: client, scheduler and the record of what happened -/

/-- The client together with the scheduler, the calls made on collaborators so
far (`trace`), the callbacks the scheduler has invoked with the time of each
invocation (`fired`), and whether a null dereference has ended the program. -/
structure World where
  client : MbedClient
  sched : Scheduler
  trace : List Effect
  fired : List (Nat × Callback)
  crashed : Bool
deriving DecidableEq, Repr

namespace World

/-- The program before `app_start`: the global `mbed_client` is constructed
and the scheduler is empty at time 0. -/
def init : World :=
  { client := MbedClient.new
    sched := { now := 0, pending := [], stopped := false }
    trace := []
    fired := []
    crashed := false }

/-- One call on a collaborator takes effect: every call is recorded, and a
call on the scheduler changes the scheduler. -/
def perform (w : World) (e : Effect) : World :=
  let w1 := { w with trace := w.trace ++ [e] }
  match e with
  | .postCallback cb delay period => { w1 with sched := w1.sched.post cb delay period }
  | .scheduler_stop => { w1 with sched := w1.sched.stop }
  | _ => w1

/-- The calls of a list take effect in order. -/
def performAll (w : World) (effs : List Effect) : World := effs.foldl perform w

/-- The outcome of a member function takes effect; `none` ends the program. -/
def call (w : World) (r : Option (MbedClient × List Effect)) : World :=
  if w.crashed then w else
  match r with
  | none => { w with crashed := true }
  | some (c, effs) => performAll { w with client := c } effs

/-- An operation or notification is delivered to the client. -/
def deliver (w : World) (op : Op) : World := w.call (step w.client op)

/-- A sequence of operations and notifications is delivered in order. -/
def deliverAll (w : World) (ops : List Op) : World := ops.foldl deliver w

/-- Modelled from the spec: one iteration of `run()` of the minar scheduler.
It is `none` when the loop exits (after `stop()`, when nothing is pending, or
when the program has ended); otherwise the earliest task is taken out, time
advances to its due time, its callback is invoked, and a periodic task is put
back one period later. -/
def dispatch (w : World) : Option World :=
  if w.crashed ∨ w.sched.stopped then none else
  match earliest w.sched.pending with
  | none => none
  | some t =>
    let at_ := max w.sched.now t.due
    let w1 : World :=
      { w with
        sched := { w.sched with now := at_, pending := w.sched.pending.erase t }
        fired := w.fired ++ [(at_, t.cb)] }
    let w2 := w1.deliver t.cb.op
    match t.period with
    | none => some w2
    | some p =>
      some { w2 with sched := { w2.sched with pending := w2.sched.pending ++ [{ t with due := at_ + p }] } }

/-- Modelled from the spec: `run()` of the minar scheduler, bounded to `n`
iterations. -/
def run : Nat → World → World
  | 0, w => w
  | n + 1, w =>
    match w.dispatch with
    | none => w
    | some w1 => run n w1

end World

/-! ## `app_start` -/

/-- What `app_start` receives from its environment. -/
structure Env where
  cfg : SecurityH
  mode : BindingMode
  eth_connect : Int
  lwipv4_socket_init : Int
  ip_address : String
  rand : Nat
  interface_created : Bool
  security_created : Bool
  device_created : Bool
  led_allocated : Bool
  red : Bool
  green : Bool
  blue : Bool
deriving DecidableEq, Repr

/-- The function `app_start`. -/
def app_start (env : Env) (w : World) : World :=
  let w := w.performAll [Effect.trace_init, Effect.baud 115200, Effect.eth_init]
  let w := w.perform (Effect.printf
    (if env.eth_connect = 0 then "Connected!\r\n" else "Failed to form a connection!\r\n"))
  let w := if env.lwipv4_socket_init ≠ 0 then
      w.perform (Effect.printf "Error on lwipv4_socket_init!\r\n") else w
  let w := w.perform (Effect.printf ("IP address is " ++ env.ip_address ++ "\r\n"))
  let w := w.perform (Effect.printf ("Device name " ++ env.cfg.MBED_ENDPOINT_NAME ++ "\r\n"))
  let w := w.perform (Effect.fall Button.unreg_button Handler.test_unregister)
  let w := w.perform (Effect.fall Button.obs_button Handler.update_resource)
  let w := w.deliver (Op.create_interface env.cfg env.mode env.rand env.interface_created)
  let register_object := MbedClient.create_register_object env.cfg env.security_created
  let device_object := MbedClient.create_device_object env.device_created
  match MbedClient.create_led_object env.red env.green env.blue env.led_allocated with
  | none => { w with crashed := true }
  | some led_object =>
    let object_list : M2MObjectList := [device_object, some led_object]
    let w := w.deliver (Op.set_register_object register_object)
    let w := w.perform (Effect.postCallback (Callback.test_register register_object object_list)
      none none)
    let w := w.perform (Effect.postCallback Callback.test_update_register none (some 25000))
    w.deliver (Op.disco 50 200)

/-- An environment in which the network comes up and every allocation
succeeds. -/
def Env.sample : Env :=
  { cfg := { MBED_DOMAIN := "domain", MBED_ENDPOINT_NAME := "endpoint",
             SERVER_CERT := [1], CERT := [2], KEY := [3] }
    mode := BindingMode.UDP
    eth_connect := 0
    lwipv4_socket_init := 0
    ip_address := "192.168.0.2"
    rand := 7
    interface_created := true
    security_created := true
    device_created := true
    led_allocated := true
    red := false
    green := false
    blue := false }

/-! ## Sample states and the vocabulary of the statements -/

/-- The client once `app_start` has created its interface and stored the
register object. -/
def startedSample : MbedClient :=
  { MbedClient.new with
    _interface := some
      { endpoint_name := "endpoint", endpoint_type := "test", life_time := 3600,
        listen_port := 12352, domain := "domain", mode := BindingMode.UDP,
        stack := NetworkStack.LwIP_IPv4, context_address := "" }
    _register_security := MbedClient.create_register_object Env.sample.cfg true }

/-- The program after `app_start`, the dispatch of the posted `test_register`
and the registration success. -/
def registeredWorld : World :=
  ((app_start Env.sample World.init).run 1).deliver Op.object_registered

/-- The program `registeredWorld` after the error notification `error(Timeout)`. -/
def afterError : World :=
  registeredWorld.deliver (Op.error Error.Timeout)

/-- The signed reading of a byte. -/
def signedByte (b : Nat) : Int := if b < 128 then (b : Int) else (b : Int) - 256

/-- The big-endian 16-bit value with high byte `hi` and low byte `lo`. -/
def bigEndian16 (hi lo : Nat) : Int := 256 * (hi : Int) + (lo : Int)

/-- The invocations the chain `disco(n, d)` gives rise to when it is started
at time `t0`: the k-th at `t0 + k*d` with `n - k` turns left, for k from 1 to n. -/
def chainFirings (t0 : Nat) (n : Nat) (d : Int) : List (Nat × Callback) :=
  (List.range n).map
    (fun k => (t0 + (k + 1) * d.toNat, Callback.disco ((n : Int) - ((k : Int) + 1)) d))

/-! ## General facts about the program model -/

namespace World

theorem perform_client (w : World) (e : Effect) : (w.perform e).client = w.client := by
  cases e <;> rfl

theorem perform_crashed (w : World) (e : Effect) : (w.perform e).crashed = w.crashed := by
  cases e <;> rfl

theorem perform_fired (w : World) (e : Effect) : (w.perform e).fired = w.fired := by
  cases e <;> rfl

theorem perform_trace (w : World) (e : Effect) : (w.perform e).trace = w.trace ++ [e] := by
  cases e <;> rfl

theorem perform_stopped (w : World) (e : Effect) :
    (w.perform e).sched.stopped = (w.sched.stopped || decide (e = Effect.scheduler_stop)) := by
  cases e <;> simp [perform, Scheduler.post, Scheduler.stop]

theorem perform_pending_stop (w : World) :
    (w.perform Effect.scheduler_stop).sched.pending = w.sched.pending := rfl

theorem perform_sched_of_not_scheduler (w : World) (e : Effect) (h : e.isScheduler = false) :
    (w.perform e).sched = w.sched := by
  cases e <;> first | rfl | simp [Effect.isScheduler] at h

theorem performAll_nil (w : World) : w.performAll [] = w := rfl

theorem performAll_cons (w : World) (e : Effect) (effs : List Effect) :
    w.performAll (e :: effs) = (w.perform e).performAll effs := rfl

theorem performAll_client (w : World) (effs : List Effect) :
    (w.performAll effs).client = w.client := by
  induction effs generalizing w with
  | nil => rfl
  | cons e effs ih => rw [performAll_cons, ih, perform_client]

theorem performAll_crashed (w : World) (effs : List Effect) :
    (w.performAll effs).crashed = w.crashed := by
  induction effs generalizing w with
  | nil => rfl
  | cons e effs ih => rw [performAll_cons, ih, perform_crashed]

theorem performAll_fired (w : World) (effs : List Effect) :
    (w.performAll effs).fired = w.fired := by
  induction effs generalizing w with
  | nil => rfl
  | cons e effs ih => rw [performAll_cons, ih, perform_fired]

theorem performAll_trace (w : World) (effs : List Effect) :
    (w.performAll effs).trace = w.trace ++ effs := by
  induction effs generalizing w with
  | nil => simp [performAll_nil]
  | cons e effs ih => rw [performAll_cons, ih, perform_trace]; simp

theorem performAll_stopped (w : World) (effs : List Effect) :
    (w.performAll effs).sched.stopped = true ↔
      (w.sched.stopped = true ∨ Effect.scheduler_stop ∈ effs) := by
  induction effs generalizing w with
  | nil => simp [performAll_nil]
  | cons e effs ih =>
    rw [performAll_cons, ih, perform_stopped]
    simp only [Bool.or_eq_true, decide_eq_true_eq, List.mem_cons]
    constructor
    · rintro ((h | h) | h)
      · exact Or.inl h
      · exact Or.inr (Or.inl h.symm)
      · exact Or.inr (Or.inr h)
    · rintro (h | h | h)
      · exact Or.inl (Or.inl h)
      · exact Or.inl (Or.inr h.symm)
      · exact Or.inr h

theorem performAll_pending_of_no_post (w : World) (effs : List Effect)
    (h : ∀ e ∈ effs, ∀ cb d p, e ≠ Effect.postCallback cb d p) :
    (w.performAll effs).sched.pending = w.sched.pending := by
  induction effs generalizing w with
  | nil => rfl
  | cons e effs ih =>
    rw [performAll_cons, ih _ (fun x hx => h x (List.mem_cons_of_mem _ hx))]
    cases e with
    | postCallback cb d p => exact absurd rfl (h _ (List.mem_cons_self _ _) cb d p)
    | _ => rfl

theorem deliver_of_step (w : World) (op : Op) (c : MbedClient) (effs : List Effect)
    (hc : w.crashed = false) (h : step w.client op = some (c, effs)) :
    w.deliver op = performAll { w with client := c } effs := by
  simp [deliver, call, hc, h]

theorem deliver_of_crashed (w : World) (op : Op) (hc : w.crashed = true) :
    w.deliver op = w := by
  simp [deliver, call, hc]

theorem deliver_of_fault (w : World) (op : Op) (hc : w.crashed = false)
    (h : step w.client op = none) : w.deliver op = { w with crashed := true } := by
  simp [deliver, call, hc, h]

theorem deliverAll_nil (w : World) : w.deliverAll [] = w := rfl

theorem deliverAll_cons (w : World) (op : Op) (ops : List Op) :
    w.deliverAll (op :: ops) = (w.deliver op).deliverAll ops := rfl

theorem run_of_stopped (w : World) (h : w.sched.stopped = true) (n : Nat) : w.run n = w := by
  cases n with
  | zero => rfl
  | succ n => simp [run, dispatch, h]

end World

/-! ## Facts about single operations -/

theorem disco_no_stop (turns_left delay_ms : Int) :
    Effect.scheduler_stop ∉ MbedClient.disco turns_left delay_ms := by
  unfold MbedClient.disco
  by_cases h : turns_left > 0 <;> simp [h]

theorem disco_no_request (turns_left delay_ms : Int) :
    ∀ e ∈ MbedClient.disco turns_left delay_ms, e.isRequest = false := by
  unfold MbedClient.disco
  by_cases h : turns_left > 0 <;> simp [h, Effect.isRequest]

theorem error_effects (c : MbedClient) (e : Error) :
    ∀ x ∈ (c.error e).2, ∃ text, x = Effect.printf text := by
  cases e <;> simp [MbedClient.error, MbedClient.trace_printer]

theorem error_client (c : MbedClient) (e : Error) :
    (c.error e).1 = { c with _error := true } := by
  cases e <;> rfl

theorem step_stop {c c1 : MbedClient} {effs : List Effect} {op : Op}
    (h : step c op = some (c1, effs)) (hs : Effect.scheduler_stop ∈ effs) :
    op = Op.object_unregistered := by
  cases op with
  | object_unregistered => rfl
  | create_interface cfg mode rand created =>
    simp [step, MbedClient.create_interface] at h; obtain ⟨rfl, rfl⟩ := h; simp at hs
  | disco t d =>
    simp [step] at h; obtain ⟨rfl, rfl⟩ := h; exact absurd hs (disco_no_stop t d)
  | execute_disco a =>
    match a with
    | [] => simp [step, MbedClient.execute_disco] at h
    | [_] => simp [step, MbedClient.execute_disco] at h
    | [_, _] => simp [step, MbedClient.execute_disco] at h
    | b0 :: b1 :: b2 :: _ =>
      simp [step, MbedClient.execute_disco] at h
      obtain ⟨rfl, rfl⟩ := h
      simp at hs
      exact absurd hs (disco_no_stop _ _)
  | update_resource =>
    simp only [step, MbedClient.update_resource] at h
    split at h
    · simp at h; obtain ⟨rfl, rfl⟩ := h; simp at hs
    · split at h
      · simp at h; obtain ⟨rfl, rfl⟩ := h; simp at hs
      · split at h
        · simp at h
        · simp at h; obtain ⟨rfl, rfl⟩ := h; simp at hs
  | test_register r l =>
    simp only [step, MbedClient.test_register] at h
    split at h <;> (simp at h; obtain ⟨rfl, rfl⟩ := h; simp at hs)
  | test_unregister =>
    simp only [step, MbedClient.test_unregister] at h
    split at h <;> (simp at h; obtain ⟨rfl, rfl⟩ := h; simp at hs)
  | bootstrap_done so =>
    simp only [step, MbedClient.bootstrap_done] at h
    split at h <;> (simp at h; obtain ⟨rfl, rfl⟩ := h; simp [MbedClient.trace_printer] at hs)
  | object_registered =>
    simp [step, MbedClient.object_registered, MbedClient.trace_printer] at h
    obtain ⟨rfl, rfl⟩ := h; simp at hs
  | registration_updated =>
    simp [step, MbedClient.registration_updated] at h; obtain ⟨rfl, rfl⟩ := h; simp at hs
  | error e =>
    simp only [step, Option.some.injEq] at h
    have := error_effects c e _ (by rw [h]; exact hs)
    simp at this
  | value_updated b t =>
    simp only [step, MbedClient.value_updated] at h
    split at h
    · simp at h
    · simp at h; obtain ⟨rfl, rfl⟩ := h; simp at hs
  | test_update_register =>
    simp only [step, MbedClient.test_update_register] at h
    split at h
    · split at h
      · simp at h
      · simp at h; obtain ⟨rfl, rfl⟩ := h; simp at hs
    · simp at h; obtain ⟨rfl, rfl⟩ := h; simp at hs
  | set_register_object r =>
    simp only [step, MbedClient.set_register_object] at h
    split at h <;> (simp at h; obtain ⟨rfl, rfl⟩ := h; simp at hs)

theorem step_flags {c c1 : MbedClient} {effs : List Effect} {op : Op}
    (h : step c op = some (c1, effs))
    (hc : ¬ (c._registered = true ∧ c._unregistered = true)) :
    ¬ (c1._registered = true ∧ c1._unregistered = true) := by
  cases op with
  | object_unregistered =>
    simp [step, MbedClient.object_unregistered] at h; obtain ⟨rfl, rfl⟩ := h; simp
  | object_registered =>
    simp [step, MbedClient.object_registered] at h; obtain ⟨rfl, rfl⟩ := h; simp
  | create_interface cfg mode rand created =>
    simp [step, MbedClient.create_interface] at h; obtain ⟨rfl, rfl⟩ := h; simpa using hc
  | disco t d => simp [step] at h; obtain ⟨rfl, rfl⟩ := h; simpa using hc
  | execute_disco a =>
    simp only [step, Option.map_eq_some'] at h
    obtain ⟨_, _, h⟩ := h
    simp at h; obtain ⟨rfl, rfl⟩ := h; simpa using hc
  | update_resource =>
    simp only [step, MbedClient.update_resource] at h
    split at h
    · simp at h; obtain ⟨rfl, rfl⟩ := h; simpa using hc
    · split at h
      · simp at h; obtain ⟨rfl, rfl⟩ := h; simpa using hc
      · split at h
        · simp at h
        · simp at h; obtain ⟨rfl, rfl⟩ := h; simpa using hc
  | test_register r l =>
    simp only [step, MbedClient.test_register] at h
    split at h <;> (simp at h; obtain ⟨rfl, rfl⟩ := h; simpa using hc)
  | test_unregister =>
    simp only [step, MbedClient.test_unregister] at h
    split at h <;> (simp at h; obtain ⟨rfl, rfl⟩ := h; simpa using hc)
  | bootstrap_done so =>
    simp only [step, MbedClient.bootstrap_done] at h
    split at h <;> (simp at h; obtain ⟨rfl, rfl⟩ := h; simpa using hc)
  | registration_updated =>
    simp [step, MbedClient.registration_updated] at h; obtain ⟨rfl, rfl⟩ := h; simpa using hc
  | error e =>
    simp only [step, Option.some.injEq] at h
    have h1 := error_client c e
    rw [h] at h1; simp at h1; simpa [h1] using hc
  | value_updated b t =>
    simp only [step, MbedClient.value_updated] at h
    split at h
    · simp at h
    · simp at h; obtain ⟨rfl, rfl⟩ := h; simpa using hc
  | test_update_register =>
    simp only [step, MbedClient.test_update_register] at h
    split at h
    · split at h
      · simp at h
      · simp at h; obtain ⟨rfl, rfl⟩ := h; simpa using hc
    · simp at h; obtain ⟨rfl, rfl⟩ := h; simpa using hc
  | set_register_object r =>
    simp only [step, MbedClient.set_register_object] at h
    split at h <;> (simp at h; obtain ⟨rfl, rfl⟩ := h; simpa using hc)

theorem step_object {c c1 : MbedClient} {effs : List Effect} {op : Op}
    (h : step c op = some (c1, effs)) (hc : c._object = none) : c1._object = none := by
  cases op with
  | object_unregistered =>
    simp [step, MbedClient.object_unregistered] at h; obtain ⟨rfl, rfl⟩ := h; simpa using hc
  | object_registered =>
    simp [step, MbedClient.object_registered] at h; obtain ⟨rfl, rfl⟩ := h; simpa using hc
  | create_interface cfg mode rand created =>
    simp [step, MbedClient.create_interface] at h; obtain ⟨rfl, rfl⟩ := h; simpa using hc
  | disco t d => simp [step] at h; obtain ⟨rfl, rfl⟩ := h; simpa using hc
  | execute_disco a =>
    simp only [step, Option.map_eq_some'] at h
    obtain ⟨_, _, h⟩ := h
    simp at h; obtain ⟨rfl, rfl⟩ := h; simpa using hc
  | update_resource =>
    simp only [step, MbedClient.update_resource, hc] at h
    simp at h; obtain ⟨rfl, rfl⟩ := h; simpa using hc
  | test_register r l =>
    simp only [step, MbedClient.test_register] at h
    split at h <;> (simp at h; obtain ⟨rfl, rfl⟩ := h; simpa using hc)
  | test_unregister =>
    simp only [step, MbedClient.test_unregister] at h
    split at h <;> (simp at h; obtain ⟨rfl, rfl⟩ := h; simpa using hc)
  | bootstrap_done so =>
    simp only [step, MbedClient.bootstrap_done] at h
    split at h <;> (simp at h; obtain ⟨rfl, rfl⟩ := h; simpa using hc)
  | registration_updated =>
    simp [step, MbedClient.registration_updated] at h; obtain ⟨rfl, rfl⟩ := h; simpa using hc
  | error e =>
    simp only [step, Option.some.injEq] at h
    have h1 := error_client c e
    rw [h] at h1; simp at h1; simpa [h1] using hc
  | value_updated b t =>
    simp only [step, MbedClient.value_updated] at h
    split at h
    · simp at h
    · simp at h; obtain ⟨rfl, rfl⟩ := h; simpa using hc
  | test_update_register =>
    simp only [step, MbedClient.test_update_register] at h
    split at h
    · split at h
      · simp at h
      · simp at h; obtain ⟨rfl, rfl⟩ := h; simpa using hc
    · simp at h; obtain ⟨rfl, rfl⟩ := h; simpa using hc
  | set_register_object r =>
    simp only [step, MbedClient.set_register_object] at h
    split at h <;> (simp at h; obtain ⟨rfl, rfl⟩ := h; simpa using hc)

theorem reachable_object_none {c : MbedClient} (h : Reachable c) : c._object = none := by
  induction h with
  | new => rfl
  | step op _ hs ih => exact step_object hs ih

theorem step_registered_interface {c c1 : MbedClient} {effs : List Effect} {op : Op}
    (h : step c op = some (c1, effs))
    (hn : op.isNotification = true → c._interface ≠ none)
    (hcr : op.isCreate = true → c._interface = none)
    (hc : c._registered = true → c._interface ≠ none) :
    c1._registered = true → c1._interface ≠ none := by
  cases op with
  | object_unregistered =>
    simp [step, MbedClient.object_unregistered] at h; obtain ⟨rfl, rfl⟩ := h; simp
  | object_registered =>
    simp [step, MbedClient.object_registered] at h; obtain ⟨rfl, rfl⟩ := h
    intro _
    exact hn rfl
  | create_interface cfg mode rand created =>
    simp [step, MbedClient.create_interface] at h; obtain ⟨rfl, rfl⟩ := h
    intro hr
    exact absurd (hcr rfl) (hc hr)
  | disco t d => simp [step] at h; obtain ⟨rfl, rfl⟩ := h; simpa using hc
  | execute_disco a =>
    simp only [step, Option.map_eq_some'] at h
    obtain ⟨_, _, h⟩ := h
    simp at h; obtain ⟨rfl, rfl⟩ := h; simpa using hc
  | update_resource =>
    simp only [step, MbedClient.update_resource] at h
    split at h
    · simp at h; obtain ⟨rfl, rfl⟩ := h; simpa using hc
    · split at h
      · simp at h; obtain ⟨rfl, rfl⟩ := h; simpa using hc
      · split at h
        · simp at h
        · simp at h; obtain ⟨rfl, rfl⟩ := h; simpa using hc
  | test_register r l =>
    simp only [step, MbedClient.test_register] at h
    split at h <;> (simp at h; obtain ⟨rfl, rfl⟩ := h; simpa using hc)
  | test_unregister =>
    simp only [step, MbedClient.test_unregister] at h
    split at h <;> (simp at h; obtain ⟨rfl, rfl⟩ := h; simpa using hc)
  | bootstrap_done so =>
    simp only [step, MbedClient.bootstrap_done] at h
    split at h <;> (simp at h; obtain ⟨rfl, rfl⟩ := h; simpa using hc)
  | registration_updated =>
    simp [step, MbedClient.registration_updated] at h; obtain ⟨rfl, rfl⟩ := h; simpa using hc
  | error e =>
    simp only [step, Option.some.injEq] at h
    have h1 := error_client c e
    rw [h] at h1; simp at h1; simpa [h1] using hc
  | value_updated b t =>
    simp only [step, MbedClient.value_updated] at h
    split at h
    · simp at h
    · simp at h; obtain ⟨rfl, rfl⟩ := h; simpa using hc
  | test_update_register =>
    simp only [step, MbedClient.test_update_register] at h
    split at h
    · split at h
      · simp at h
      · simp at h; obtain ⟨rfl, rfl⟩ := h; simpa using hc
    · simp at h; obtain ⟨rfl, rfl⟩ := h; simpa using hc
  | set_register_object r =>
    simp only [step, MbedClient.set_register_object] at h
    split at h <;> (simp at h; obtain ⟨rfl, rfl⟩ := h; simpa using hc)

theorem receivable_registered_interface {c : MbedClient} (h : Receivable c) :
    c._registered = true → c._interface ≠ none := by
  induction h with
  | new => intro hr; exact absurd hr (by decide)
  | step op _ hn hcr hs ih => exact step_registered_interface hs hn hcr ih

theorem test_update_register_of_guard (c : MbedClient)
    (h : c._interface ≠ none ∨ c._registered = false) :
    ∃ effs, c.test_update_register = some (c, effs) ∧
      (c._registered = true →
        effs = [Effect.update_registration c._register_security 3600]) ∧
      (c._registered = false → effs = []) ∧
      ((∃ e ∈ effs, e.isRequest = true) ↔ c._registered = true) := by
  cases hr : c._registered with
  | false =>
    exact ⟨[], by simp [MbedClient.test_update_register, hr], by simp, by simp, by simp⟩
  | true =>
    cases hi : c._interface with
    | none => simp [hi, hr] at h
    | some i =>
      exact ⟨[Effect.update_registration c._register_security 3600],
        by simp [MbedClient.test_update_register, hr, hi], by simp, by simp,
        by simp [Effect.isRequest]⟩

theorem receivable_guard {c : MbedClient} (h : Receivable c) :
    c._interface ≠ none ∨ c._registered = false := by
  cases hr : c._registered with
  | false => exact Or.inr rfl
  | true => exact Or.inl (receivable_registered_interface h hr)

theorem startedSample_receivable : Receivable startedSample.object_registered.1 :=
  Receivable.step Op.object_registered
    (Receivable.step
      (Op.set_register_object (MbedClient.create_register_object Env.sample.cfg true))
      (Receivable.step (Op.create_interface Env.sample.cfg BindingMode.UDP 7 true)
        Receivable.new (fun h => absurd h (by decide)) (fun _ => rfl) rfl)
      (fun h => absurd h (by decide)) (fun h => absurd h (by decide)) rfl)
    (fun _ => by decide) (fun h => absurd h (by decide)) rfl

theorem registeredWorld_client : registeredWorld.client = startedSample.object_registered.1 := by
  set_option maxRecDepth 100000 in decide

/-! ## Unregistration -/

/-- C1: from every session state in which the device is registered (registered
flag true, unregistered flag false), the unregister-success notification
`object_unregistered` leaves the unregistered flag true and the registered flag
false and asks the scheduler to stop; in the running program the stop request
reaches the scheduler, whose run loop then exits without invoking anything
further. -/
theorem object_unregistered_stops (c : MbedClient)
    (hr : c._registered = true) (hu : c._unregistered = false) :
    c.object_unregistered.1._unregistered = true ∧
    c.object_unregistered.1._registered = false ∧
    Effect.scheduler_stop ∈ c.object_unregistered.2 ∧
    ∀ w : World, w.client = c → w.crashed = false →
      (w.deliver Op.object_unregistered).client._unregistered = true ∧
      (w.deliver Op.object_unregistered).client._registered = false ∧
      (w.deliver Op.object_unregistered).sched.stopped = true ∧
      (w.deliver Op.object_unregistered).dispatch = none ∧
      ∀ n, (w.deliver Op.object_unregistered).run n = w.deliver Op.object_unregistered := by
  have _ := hr
  have _ := hu
  refine ⟨rfl, rfl, by simp [MbedClient.object_unregistered], ?_⟩
  intro w _ hc
  have hd := World.deliver_of_step w Op.object_unregistered _ _ hc rfl
  have hs : (w.deliver Op.object_unregistered).sched.stopped = true := by
    rw [hd, World.performAll_stopped]
    exact Or.inr (by simp [MbedClient.object_unregistered])
  refine ⟨?_, ?_, hs, ?_, World.run_of_stopped _ hs⟩
  · rw [hd, World.performAll_client]
  · rw [hd, World.performAll_client]
  · simp [World.dispatch, hs]

/-- The statement above in the program that `app_start` has started and the
server has registered. -/
theorem object_unregistered_stops_witness :
    registeredWorld.client._registered = true ∧
    registeredWorld.client._unregistered = false ∧
    (registeredWorld.deliver Op.object_unregistered).client._unregistered = true ∧
    (registeredWorld.deliver Op.object_unregistered).client._registered = false ∧
    (registeredWorld.deliver Op.object_unregistered).sched.stopped = true ∧
    (registeredWorld.deliver Op.object_unregistered).run 100 =
      registeredWorld.deliver Op.object_unregistered := by
  have h := (object_unregistered_stops registeredWorld.client
    (by set_option maxRecDepth 100000 in decide)
    (by set_option maxRecDepth 100000 in decide)).2.2.2 registeredWorld rfl
    (by set_option maxRecDepth 100000 in decide)
  exact ⟨by set_option maxRecDepth 100000 in decide,
    by set_option maxRecDepth 100000 in decide, h.1, h.2.1, h.2.2.1, h.2.2.2.2 100⟩

/-! ## Error notifications -/

/-- C3: for each of the ten error kinds named in the switch, `error(kind)`
sets the error flag and writes exactly one message to the trace sink; the
message is the text `[ERROR:] M2MInterface::` followed by the identifier of the
kind, framed by `trace_printer`, and two different kinds never give the same
message. -/
theorem error_traces_kind (c : MbedClient) (e : Error) (he : e.listed = true) :
    (c.error e).1._error = true ∧
    (c.error e).2 =
      [Effect.printf ("\r\n" ++ ("[ERROR:] M2MInterface::" ++ e.ident ++ "\n") ++ "\r\n")] ∧
    ∀ (c1 : MbedClient) (e1 : Error), e1.listed = true →
      (c1.error e1).2 = (c.error e).2 → e1 = e := by
  refine ⟨by rw [error_client], ?_, ?_⟩
  · cases e <;> first | rfl | simp [Error.listed] at he
  · intro c1 e1 he1 h
    cases e <;> cases e1 <;> simp only [Error.listed] at he he1 <;>
      first
        | rfl
        | exact absurd he Bool.false_ne_true
        | exact absurd he1 Bool.false_ne_true
        | (exfalso; revert h;
           simp only [MbedClient.error, MbedClient.trace_printer, List.cons.injEq,
             Effect.printf.injEq, and_true]; decide)

/-- The statement above at the kind `Timeout`. -/
theorem error_traces_kind_witness :
    Error.Timeout.listed = true ∧
    (MbedClient.new.error Error.Timeout).1._error = true ∧
    (MbedClient.new.error Error.Timeout).2 =
      [Effect.printf "\r\n[ERROR:] M2MInterface::Timeout\n\r\n"] ∧
    ((MbedClient.new.error Error.NetworkError).2 = (MbedClient.new.error Error.Timeout).2 →
      Error.NetworkError = Error.Timeout) :=
  ⟨rfl, (error_traces_kind MbedClient.new Error.Timeout rfl).1,
   (error_traces_kind MbedClient.new Error.Timeout rfl).2.1,
   (error_traces_kind MbedClient.new Error.Timeout rfl).2.2 MbedClient.new Error.NetworkError rfl⟩

theorem deliver_invariant (w : World) (op : Op)
    (hf : ¬ (w.client._registered = true ∧ w.client._unregistered = true)) :
    ¬ ((w.deliver op).client._registered = true ∧ (w.deliver op).client._unregistered = true) ∧
    ((w.deliver op).sched.stopped = true →
      w.sched.stopped = true ∨ op = Op.object_unregistered) := by
  cases hc : w.crashed with
  | true =>
    rw [World.deliver_of_crashed w op hc]
    exact ⟨hf, Or.inl⟩
  | false =>
    cases hs : step w.client op with
    | none =>
      rw [World.deliver_of_fault w op hc hs]
      exact ⟨hf, Or.inl⟩
    | some r =>
      obtain ⟨c, effs⟩ := r
      rw [World.deliver_of_step w op c effs hc hs, World.performAll_client,
        World.performAll_stopped]
      refine ⟨step_flags hs hf, ?_⟩
      rintro (h | h)
      · exact Or.inl h
      · exact Or.inr (step_stop hs h)

theorem deliverAll_invariant (ops : List Op) (w : World)
    (hf : ¬ (w.client._registered = true ∧ w.client._unregistered = true)) :
    ¬ ((w.deliverAll ops).client._registered = true ∧
        (w.deliverAll ops).client._unregistered = true) ∧
    ((w.deliverAll ops).sched.stopped = true →
      w.sched.stopped = true ∨ Op.object_unregistered ∈ ops) := by
  induction ops generalizing w with
  | nil => exact ⟨hf, Or.inl⟩
  | cons op ops ih =>
    rw [World.deliverAll_cons]
    obtain ⟨h1, h2⟩ := deliver_invariant w op hf
    obtain ⟨h3, h4⟩ := ih (w.deliver op) h1
    refine ⟨h3, fun h => ?_⟩
    rcases h4 h with h5 | h5
    · rcases h2 h5 with h6 | h6
      · exact Or.inl h6
      · exact Or.inr (by rw [h6]; exact List.mem_cons_self _ _)
    · exact Or.inr (List.mem_cons_of_mem _ h5)

theorem perform_stopped_iff_trace (w : World) (e : Effect)
    (h : w.sched.stopped = true ↔ Effect.scheduler_stop ∈ w.trace) :
    (w.perform e).sched.stopped = true ↔ Effect.scheduler_stop ∈ (w.perform e).trace := by
  rw [World.perform_stopped, World.perform_trace]
  simp only [Bool.or_eq_true, decide_eq_true_eq, List.mem_append, List.mem_singleton, h]
  constructor
  · rintro (h1 | h1)
    · exact Or.inl h1
    · exact Or.inr h1.symm
  · rintro (h1 | h1)
    · exact Or.inl h1
    · exact Or.inr h1.symm

theorem performAll_stopped_iff_trace (effs : List Effect) (w : World)
    (h : w.sched.stopped = true ↔ Effect.scheduler_stop ∈ w.trace) :
    (w.performAll effs).sched.stopped = true ↔
      Effect.scheduler_stop ∈ (w.performAll effs).trace := by
  induction effs generalizing w with
  | nil => exact h
  | cons e effs ih =>
    rw [World.performAll_cons]
    exact ih _ (perform_stopped_iff_trace w e h)

theorem deliver_stopped_iff_trace (w : World) (op : Op)
    (h : w.sched.stopped = true ↔ Effect.scheduler_stop ∈ w.trace) :
    (w.deliver op).sched.stopped = true ↔ Effect.scheduler_stop ∈ (w.deliver op).trace := by
  cases hc : w.crashed with
  | true => rw [World.deliver_of_crashed w op hc]; exact h
  | false =>
    cases hs : step w.client op with
    | none => rw [World.deliver_of_fault w op hc hs]; exact h
    | some r =>
      obtain ⟨c, effs⟩ := r
      rw [World.deliver_of_step w op c effs hc hs]
      exact performAll_stopped_iff_trace effs _ h

theorem stopped_iff_trace (ops : List Op) (w : World)
    (h : w.sched.stopped = true ↔ Effect.scheduler_stop ∈ w.trace) :
    (w.deliverAll ops).sched.stopped = true ↔
      Effect.scheduler_stop ∈ (w.deliverAll ops).trace := by
  induction ops generalizing w with
  | nil => exact h
  | cons op ops ih =>
    rw [World.deliverAll_cons]
    exact ih _ (deliver_stopped_iff_trace w op h)

/-- C9: after every finite sequence of operations and observer notifications
delivered to a freshly constructed client (the eight of the claim, and the
other members of the class as well), the registered flag and the unregistered
flag are not both true, and the scheduler has been asked to stop only if the
unregister-success notification occurs in the sequence. Every initial segment of a
sequence is a sequence, so the flags are never both true on the way either. -/
theorem flags_exclusive_and_stop_only_after_unregistered (ops : List Op) :
    ¬ ((World.init.deliverAll ops).client._registered = true ∧
        (World.init.deliverAll ops).client._unregistered = true) ∧
    ((World.init.deliverAll ops).sched.stopped = true → Op.object_unregistered ∈ ops) ∧
    (Effect.scheduler_stop ∈ (World.init.deliverAll ops).trace →
      Op.object_unregistered ∈ ops) := by
  have hinit : ¬ (World.init.client._registered = true ∧
      World.init.client._unregistered = true) := by decide
  obtain ⟨h1, h2⟩ := deliverAll_invariant ops World.init hinit
  have h3 : (World.init.deliverAll ops).sched.stopped = true → Op.object_unregistered ∈ ops := by
    intro h
    rcases h2 h with h | h
    · exact absurd h (by decide)
    · exact h
  refine ⟨h1, h3, fun h => h3 ?_⟩
  exact (stopped_iff_trace ops World.init (by simp [World.init])).2 h

/-- The statement above at the sequence registration success, unregistration
success. -/
theorem flags_exclusive_and_stop_only_after_unregistered_witness :
    (World.init.deliverAll [Op.object_registered, Op.object_unregistered]).sched.stopped = true ∧
    Op.object_unregistered ∈ [Op.object_registered, Op.object_unregistered] ∧
    ¬ ((World.init.deliverAll [Op.object_registered, Op.object_unregistered]).client._registered
          = true ∧
        (World.init.deliverAll [Op.object_registered, Op.object_unregistered]).client._unregistered
          = true) :=
  ⟨by decide,
   (flags_exclusive_and_stop_only_after_unregistered
      [Op.object_registered, Op.object_unregistered]).2.1 (by decide),
   (flags_exclusive_and_stop_only_after_unregistered
      [Op.object_registered, Op.object_unregistered]).1⟩

/-! ## The observation trigger -/

/-- C7 (the code departs from the claim): in every client state reachable from
construction through the operations of the class, `_object` is still null, so
the observe trigger `update_resource` writes no resource, prints nothing and
leaves the counter as it is. -/
theorem update_resource_does_nothing (c : MbedClient) (h : Reachable c) :
    c._object = none ∧ c.update_resource = some (c, []) := by
  have ho := reachable_object_none h
  exact ⟨ho, by simp [MbedClient.update_resource, ho]⟩

/-- The sample client is reached by `create_interface` and
`set_register_object`. -/
theorem startedSample_reachable : Reachable startedSample :=
  Reachable.step (Op.set_register_object (MbedClient.create_register_object Env.sample.cfg true))
    (Reachable.step (Op.create_interface Env.sample.cfg BindingMode.UDP 7 true) Reachable.new rfl)
    rfl

/-- The statement above for the client that `app_start` leaves behind, with
the observation button pressed then. -/
theorem update_resource_does_nothing_witness :
    (app_start Env.sample World.init).client = startedSample ∧
    startedSample._object = none ∧
    startedSample.update_resource = some (startedSample, []) ∧
    (app_start Env.sample World.init).deliver Op.update_resource =
      app_start Env.sample World.init :=
  ⟨by decide,
   (update_resource_does_nothing startedSample startedSample_reachable).1,
   (update_resource_does_nothing startedSample startedSample_reachable).2,
   by set_option maxRecDepth 100000 in decide⟩

/-- The behaviour the observe trigger has once `_object` points to an object
with a resource `D`: the decimal text of the counter is written and the counter
advances. No operation of the class brings the client into such a state. -/
theorem update_resource_with_object :
    let d : M2MResource := MbedClient.create_dynamic_resource "D" "ResourceTest"
      ResourceType.INTEGER true
    let c : MbedClient :=
      { MbedClient.new with
        _value := 41
        _object := some { name := "Test", object_instance := some { resources := [d] } } }
    c.update_resource =
      some ({ c with
              _value := 42
              _object := some { name := "Test",
                                object_instance := some { resources := [{ d with value := "41" }] } } },
            [Effect.printf "updating resource to 41\r\n"]) := by
  decide

/-! ## The update operation -/

/-- The null guard that `test_register` and `test_unregister` have is absent
from `test_update_register`: with the registered flag set and no interface the
firing dereferences null. No session state the program can be in is of this
kind (`receivable_registered_interface`); the state below is that of a client
whose `object_registered` is called although no interface exists. -/
theorem test_update_register_without_interface :
    (World.init.deliver Op.object_registered).client._registered = true ∧
    (World.init.deliver Op.object_registered).client._interface = none ∧
    (World.init.deliver Op.object_registered).client.test_update_register = none := by
  decide

/-- C8: in every session state the program can be in, a firing of the update
operation `test_update_register` (periodic or manual) returns and issues an
update request to the protocol collaborator if and only if the registered flag
is set; the request carries the lifetime 3600, which is the lifetime
`create_interface` creates the interface with, together with the stored
security context, and the firing leaves every field of the session, the flags
among them, as it was. -/
theorem test_update_register_request (c : MbedClient) (h : Receivable c) :
    ∃ effs, c.test_update_register = some (c, effs) ∧
      (c._registered = true →
        effs = [Effect.update_registration c._register_security 3600]) ∧
      (c._registered = false → effs = []) ∧
      ((∃ e ∈ effs, e.isRequest = true) ↔ c._registered = true) ∧
      ∀ (c0 : MbedClient) (cfg : SecurityH) (mode : BindingMode) (rand : Nat),
        (c0.create_interface cfg mode rand true).1._interface.map M2MInterface.life_time =
          some 3600 := by
  obtain ⟨effs, h1, h2, h3, h4⟩ := test_update_register_of_guard c (receivable_guard h)
  exact ⟨effs, h1, h2, h3, h4, fun _ _ _ _ => rfl⟩

/-- The statement above for the client of the program that `app_start` has
started and the server has registered: the firing issues the update request
with lifetime 3600 and the register object. -/
theorem test_update_register_request_witness :
    Receivable registeredWorld.client ∧
    registeredWorld.client._registered = true ∧
    registeredWorld.client.test_update_register =
      some (registeredWorld.client,
        [Effect.update_registration (MbedClient.create_register_object Env.sample.cfg true)
          3600]) := by
  have hrec : Receivable registeredWorld.client := by
    rw [registeredWorld_client]; exact startedSample_receivable
  obtain ⟨effs, h1, h2, _⟩ := test_update_register_request registeredWorld.client hrec
  have hr : registeredWorld.client._registered = true := by
    set_option maxRecDepth 100000 in decide
  refine ⟨hrec, hr, ?_⟩
  rw [h1, h2 hr]
  set_option maxRecDepth 100000 in decide

/-! ## The execute payload -/

/-- C10: for every execute payload of three bytes b0, b1, b2, `execute_disco`
prints and then starts the animation `disco(turns, delay)`, where turns is b0
read as a signed 8-bit integer and delay is 256*s1 + s2 wrapped to a signed
16-bit integer, s1 and s2 being b1 and b2 read as signed 8-bit integers. The
delay is the big-endian value of b1, b2 read as a signed 16-bit integer if and
only if b2 < 128, and otherwise it is that value minus 256, modulo 2^16. -/
theorem execute_disco_decoding (b0 b1 b2 : Nat)
    (h0 : b0 < 256) (h1 : b1 < 256) (h2 : b2 < 256) :
    ∃ turns delay : Int,
      MbedClient.execute_disco [b0, b1, b2] =
        some (Effect.printf ("disco time turns=" ++ toString turns ++ " delay=" ++
            toString delay ++ "!\r\n") :: MbedClient.disco turns delay) ∧
      turns = signedByte b0 ∧
      -32768 ≤ delay ∧ delay ≤ 32767 ∧
      (delay - (256 * signedByte b1 + signedByte b2)) % 65536 = 0 ∧
      (delay = toInt16 (bigEndian16 b1 b2) ↔ b2 < 128) ∧
      (128 ≤ b2 → delay = toInt16 (bigEndian16 b1 b2 - 256)) := by
  have _ := h1
  refine ⟨toInt8 b0, toInt16 (toInt8 b1 * 256 + toInt8 b2), rfl, ?_, ?_, ?_, ?_, ?_, ?_⟩
  · unfold toInt8 signedByte; split <;> omega
  · unfold toInt16; omega
  · unfold toInt16; omega
  · unfold toInt16 toInt8 signedByte; split <;> split <;> omega
  · unfold toInt16 toInt8 bigEndian16; constructor <;> intro h <;> omega
  · intro h; unfold toInt16 toInt8 bigEndian16; omega

/-- The statement above at the payload 3, 0, 200: the low byte 200 is read as
-56, so the delay is -56 and not the big-endian value 200. -/
theorem execute_disco_decoding_witness :
    MbedClient.execute_disco [3, 0, 200] =
      some (Effect.printf "disco time turns=3 delay=-56!\r\n" :: MbedClient.disco 3 (-56)) ∧
    toInt16 (bigEndian16 0 200) = 200 := by
  obtain ⟨turns, delay, h1, h2, _, _, _, _, h7⟩ :=
    execute_disco_decoding 3 0 200 (by decide) (by decide) (by decide)
  have ht : turns = 3 := by rw [h2]; decide
  have hd : delay = -56 := by rw [h7 (by decide)]; decide
  subst ht
  subst hd
  exact ⟨h1, by decide⟩

/-! ## The animation chain -/

theorem toInt8_pred (n : Nat) (hn : n + 1 ≤ 127) :
    toInt8 (((n + 1 : Nat) : Int) - 1) = (n : Int) := by
  unfold toInt8
  omega

theorem disco_succ (n : Nat) (d : Int) (hn : n + 1 ≤ 127) :
    ∃ leds, MbedClient.disco ((n + 1 : Nat) : Int) d =
        Effect.postCallback (Callback.disco (n : Int) d) (some d) none :: leds ∧
      ∀ e ∈ leds, e.isScheduler = false := by
  have hpos : ((n + 1 : Nat) : Int) > 0 := by omega
  unfold MbedClient.disco
  simp only [hpos, if_true, toInt8_pred n hn, List.singleton_append]
  exact ⟨_, rfl, by simp [Effect.isScheduler]⟩

theorem disco_zero (d : Int) : ∀ e ∈ MbedClient.disco 0 d, e.isScheduler = false := by
  simp [MbedClient.disco, Effect.isScheduler]

theorem performAll_sched_of_not_scheduler (effs : List Effect) (w : World)
    (h : ∀ e ∈ effs, e.isScheduler = false) : (w.performAll effs).sched = w.sched := by
  induction effs generalizing w with
  | nil => rfl
  | cons e effs ih =>
    rw [World.performAll_cons, ih _ (fun x hx => h x (List.mem_cons_of_mem _ hx)),
      World.perform_sched_of_not_scheduler w e (h e (List.mem_cons_self _ _))]

theorem deliver_disco_zero (w : World) (d : Int) (hc : w.crashed = false) :
    (w.deliver (Op.disco 0 d)).sched = w.sched ∧
    (w.deliver (Op.disco 0 d)).fired = w.fired ∧
    (w.deliver (Op.disco 0 d)).crashed = false ∧
    (w.deliver (Op.disco 0 d)).client = w.client := by
  rw [World.deliver_of_step w (Op.disco 0 d) w.client (MbedClient.disco 0 d) hc rfl]
  refine ⟨?_, ?_, ?_, ?_⟩
  · rw [performAll_sched_of_not_scheduler _ _ (disco_zero d)]
  · rw [World.performAll_fired]
  · rw [World.performAll_crashed]; exact hc
  · rw [World.performAll_client]

theorem deliver_disco_succ (w : World) (n : Nat) (d : Int) (hn : n + 1 ≤ 127)
    (hc : w.crashed = false) :
    (w.deliver (Op.disco ((n + 1 : Nat) : Int) d)).sched =
      w.sched.post (Callback.disco (n : Int) d) (some d) none ∧
    (w.deliver (Op.disco ((n + 1 : Nat) : Int) d)).fired = w.fired ∧
    (w.deliver (Op.disco ((n + 1 : Nat) : Int) d)).crashed = false ∧
    (w.deliver (Op.disco ((n + 1 : Nat) : Int) d)).client = w.client := by
  rw [World.deliver_of_step w (Op.disco _ d) w.client (MbedClient.disco _ d) hc rfl]
  obtain ⟨leds, hl, hleds⟩ := disco_succ n d hn
  refine ⟨?_, ?_, ?_, ?_⟩
  · rw [hl, World.performAll_cons, performAll_sched_of_not_scheduler _ _ hleds]
    rfl
  · rw [World.performAll_fired]
  · rw [World.performAll_crashed]; exact hc
  · rw [World.performAll_client]

theorem run_of_no_pending (w : World) (h : w.sched.pending = []) (n : Nat) : w.run n = w := by
  cases n with
  | zero => rfl
  | succ n => simp [World.run, World.dispatch, h, earliest]

theorem dispatch_single (w : World) (t : Task) (hc : w.crashed = false)
    (hs : w.sched.stopped = false) (hp : w.sched.pending = [t]) (ht : t.period = none) :
    w.dispatch = some
      (World.deliver
        { w with
          sched := { w.sched with now := max w.sched.now t.due, pending := [] }
          fired := w.fired ++ [(max w.sched.now t.due, t.cb)] } t.cb.op) := by
  simp [World.dispatch, hc, hs, hp, earliest, ht]

theorem chainFirings_succ (t0 n : Nat) (d : Int) :
    chainFirings t0 (n + 1) d =
      (t0 + d.toNat, Callback.disco (n : Int) d) :: chainFirings (t0 + d.toNat) n d := by
  unfold chainFirings
  rw [List.range_succ_eq_map, List.map_cons, List.map_map]
  congr 1
  · simp
  · apply List.map_congr_left
    intro k _
    simp only [Function.comp, Nat.succ_eq_add_one, Prod.mk.injEq, Callback.disco.injEq, and_true]
    constructor
    · ring
    · push_cast; ring

theorem disco_chain_from (d : Int) (n : Nat) :
    ∀ (w : World) (m : Nat), n ≤ 127 → n ≤ m → 0 < d → w.crashed = false →
      w.sched.stopped = false → w.sched.pending = [] →
      ((w.deliver (Op.disco (n : Int) d)).run m).fired =
          w.fired ++ chainFirings w.sched.now n d ∧
      ((w.deliver (Op.disco (n : Int) d)).run m).sched.pending = [] ∧
      ((w.deliver (Op.disco (n : Int) d)).run m).sched.now = w.sched.now + n * d.toNat ∧
      ((w.deliver (Op.disco (n : Int) d)).run m).crashed = false ∧
      ((w.deliver (Op.disco (n : Int) d)).run m).client = w.client := by
  induction n with
  | zero =>
    intro w m _ _ _ hc _ hp
    obtain ⟨h1, h2, h3, h4⟩ := deliver_disco_zero w d hc
    have hp1 : (w.deliver (Op.disco 0 d)).sched.pending = [] := by rw [h1]; exact hp
    simp only [Nat.cast_zero]
    rw [run_of_no_pending _ hp1 m]
    refine ⟨by simp [h2, chainFirings], hp1, by simp [h1], h3, h4⟩
  | succ n ih =>
    intro w m hn hm hd hc hs hp
    obtain ⟨m1, rfl⟩ : ∃ m1, m = m1 + 1 := ⟨m - 1, by omega⟩
    obtain ⟨h1, h2, h3, h4⟩ := deliver_disco_succ w n d (by omega) hc
    have hp1 : (w.deliver (Op.disco ((n + 1 : Nat) : Int) d)).sched.pending =
        [{ due := w.sched.now + d.toNat, cb := Callback.disco (n : Int) d, period := none }] := by
      rw [h1]; simp [Scheduler.post, hp]
    have hs1 : (w.deliver (Op.disco ((n + 1 : Nat) : Int) d)).sched.stopped = false := by
      rw [h1]; simpa [Scheduler.post] using hs
    have hnow : (w.deliver (Op.disco ((n + 1 : Nat) : Int) d)).sched.now = w.sched.now := by
      rw [h1]; rfl
    have hdisp := dispatch_single _ _ h3 hs1 hp1 rfl
    simp only [World.run, hdisp, Callback.op]
    have hmax : max w.sched.now (w.sched.now + d.toNat) = w.sched.now + d.toNat := by
      simp
    obtain ⟨i1, i2, i3, i4, i5⟩ := ih
      { (w.deliver (Op.disco ((n + 1 : Nat) : Int) d)) with
        sched := { (w.deliver (Op.disco ((n + 1 : Nat) : Int) d)).sched with
          now := max (w.deliver (Op.disco ((n + 1 : Nat) : Int) d)).sched.now
            (w.sched.now + d.toNat)
          pending := [] }
        fired := (w.deliver (Op.disco ((n + 1 : Nat) : Int) d)).fired ++
          [(max (w.deliver (Op.disco ((n + 1 : Nat) : Int) d)).sched.now
            (w.sched.now + d.toNat), Callback.disco (n : Int) d)] }
      m1 (by omega) (by omega) hd h3 hs1 rfl
    refine ⟨?_, i2, ?_, i4, ?_⟩
    · rw [i1, chainFirings_succ]
      simp only [hnow, hmax, h2, List.append_assoc, List.singleton_append]
    · rw [i3]
      simp only [hnow, hmax]
      ring
    · rw [i5]; exact h4

/-- C2: for every initial repeat count n with 0 <= n <= 127 and every delay
d > 0, starting the animation with `disco(n, d)` at time 0 on an idle scheduler
and running the scheduler (for n iterations or more) gives exactly n further
invocations of `disco`, the k-th at time k*d with n-k turns left and the same
delay d; after them nothing is pending, so the invocation with count 0 has
scheduled nothing further. In particular count 3 and delay 100 give exactly
the three invocations at times 100, 200 and 300. -/
theorem disco_chain (n : Nat) (d : Int) (m : Nat) (hn : n ≤ 127) (hd : 0 < d) (hm : n ≤ m) :
    ((World.init.deliver (Op.disco (n : Int) d)).run m).fired =
      (List.range n).map
        (fun k => ((k + 1) * d.toNat, Callback.disco ((n : Int) - ((k : Int) + 1)) d)) ∧
    ((World.init.deliver (Op.disco (n : Int) d)).run m).sched.pending = [] ∧
    ((World.init.deliver (Op.disco (n : Int) d)).run m).crashed = false ∧
    (∀ e ∈ MbedClient.disco 0 d, e.isScheduler = false) := by
  obtain ⟨h1, h2, _, h4, _⟩ := disco_chain_from d n World.init m hn hm hd rfl rfl rfl
  refine ⟨?_, h2, h4, disco_zero d⟩
  rw [h1]
  simp [World.init, chainFirings]

/-- The statement above at count 3 and delay 100: exactly the three
invocations at times 100, 200 and 300. -/
theorem disco_chain_witness :
    ((World.init.deliver (Op.disco 3 100)).run 3).fired =
      [(100, Callback.disco 2 100), (200, Callback.disco 1 100),
        (300, Callback.disco 0 100)] ∧
    ((World.init.deliver (Op.disco 3 100)).run 3).sched.pending = [] ∧
    ((World.init.deliver (Op.disco 3 100)).run 3).crashed = false := by
  have h := disco_chain 3 100 3 (by decide) (by decide) (by decide)
  refine ⟨?_, h.2.1, h.2.2.1⟩
  have h1 := h.1
  simp only [Nat.cast_ofNat] at h1
  rw [h1]
  decide

/-! ## Registration requests -/

/-- C4 (counterexample): once the interface exists, a first `test_register`
issues a register request; with that request outstanding (no notification has
been delivered), a second `test_register` does not fail: it issues a second
register request and leaves the session as it was. -/
theorem test_register_while_outstanding :
    (World.init.deliverAll
      [Op.create_interface Env.sample.cfg BindingMode.UDP 7 true,
       Op.test_register none []]).trace.filter Effect.isRequest =
      [Effect.register_object none []] ∧
    (World.init.deliverAll
      [Op.create_interface Env.sample.cfg BindingMode.UDP 7 true,
       Op.test_register none [],
       Op.test_register none []]).trace.filter Effect.isRequest =
      [Effect.register_object none [], Effect.register_object none []] ∧
    (World.init.deliverAll
      [Op.create_interface Env.sample.cfg BindingMode.UDP 7 true,
       Op.test_register none [],
       Op.test_register none []]).crashed = false ∧
    (World.init.deliverAll
      [Op.create_interface Env.sample.cfg BindingMode.UDP 7 true,
       Op.test_register none [],
       Op.test_register none []]).client =
      (World.init.deliverAll
        [Op.create_interface Env.sample.cfg BindingMode.UDP 7 true]).client := by
  decide

/-- C4 (amended): `test_register` never fails and keeps no record of an
outstanding operation. In every state of the running program, whatever has
been requested before, it issues exactly one register request, with the
arguments it was given, when the interface has been created, and none when it
has not; it changes no field of the session and nothing in the scheduler. -/
theorem test_register_request (w : World) (register_object : Option M2MSecurity)
    (object_list : M2MObjectList) (hc : w.crashed = false) :
    (w.deliver (Op.test_register register_object object_list)).client = w.client ∧
    (w.deliver (Op.test_register register_object object_list)).sched = w.sched ∧
    (w.deliver (Op.test_register register_object object_list)).crashed = false ∧
    (w.client._interface ≠ none →
      (w.deliver (Op.test_register register_object object_list)).trace =
        w.trace ++ [Effect.register_object register_object object_list]) ∧
    (w.client._interface = none →
      (w.deliver (Op.test_register register_object object_list)).trace = w.trace) := by
  cases hi : w.client._interface with
  | none =>
    have hs : step w.client (Op.test_register register_object object_list) =
        some (w.client, []) := by
      simp [step, MbedClient.test_register, hi]
    rw [World.deliver_of_step w _ _ _ hc hs]
    simp [World.performAll_nil, hc]
  | some i =>
    have hs : step w.client (Op.test_register register_object object_list) =
        some (w.client, [Effect.register_object register_object object_list]) := by
      simp [step, MbedClient.test_register, hi]
    rw [World.deliver_of_step w _ _ _ hc hs]
    simp [World.performAll, World.perform, hc]

/-- The statement above for a `test_register` right after the interface has
been created. -/
theorem test_register_request_witness :
    ((World.init.deliver (Op.create_interface Env.sample.cfg BindingMode.UDP 7 true)).deliver
      (Op.test_register none [])).trace =
      (World.init.deliver (Op.create_interface Env.sample.cfg BindingMode.UDP 7 true)).trace ++
        [Effect.register_object none []] :=
  (test_register_request
    (World.init.deliver (Op.create_interface Env.sample.cfg BindingMode.UDP 7 true))
    none [] (by decide)).2.2.2.1 (by decide)

/-! ## Errors and the periodic update -/

/-- C5 (counterexample): a registered client receives `error(Timeout)`; the
error flag is set, and the next firing of `test_update_register` still issues
an update request. In the program started by `app_start` the firing is that of
the periodic task at time 25000, after the fifty animation frames. -/
theorem update_request_after_error :
    afterError.client._error = true ∧
    afterError.crashed = false ∧
    (afterError.run 51).fired.getLast? = some (25000, Callback.test_update_register) ∧
    (afterError.run 50).trace.filter Effect.isRequest =
      afterError.trace.filter Effect.isRequest ∧
    (afterError.run 51).trace.filter Effect.isRequest =
      afterError.trace.filter Effect.isRequest ++
        [Effect.update_registration (MbedClient.create_register_object Env.sample.cfg true)
          3600] ∧
    (World.init.deliverAll
      [Op.create_interface Env.sample.cfg BindingMode.UDP 7 true,
       Op.object_registered,
       Op.error Error.Timeout]).client._error = true ∧
    (World.init.deliverAll
      [Op.create_interface Env.sample.cfg BindingMode.UDP 7 true,
       Op.object_registered,
       Op.error Error.Timeout]).trace.filter Effect.isRequest = [] ∧
    (World.init.deliverAll
      [Op.create_interface Env.sample.cfg BindingMode.UDP 7 true,
       Op.object_registered,
       Op.error Error.Timeout,
       Op.test_update_register]).trace.filter Effect.isRequest =
      [Effect.update_registration none 3600] := by
  set_option maxRecDepth 100000 in decide

/-- C5 (amended): for every session state and every error kind, `error(kind)`
sets the error flag and changes no other field, and it issues no protocol
request and posts nothing to the scheduler, so nothing is retried. The error
flag is not consulted afterwards: in every session state the program can be
in, a firing of `test_update_register` after the error returns and makes
exactly the calls it would have made before the error, an update request (with
lifetime 3600 and the stored security context) if and only if the registered
flag is set. -/
theorem error_then_update (c : MbedClient) (e : Error) :
    (c.error e).1 = { c with _error := true } ∧
    (∀ x ∈ (c.error e).2, x.isRequest = false ∧ x.isScheduler = false) ∧
    (Receivable c →
      ∃ effs, (c.error e).1.test_update_register = some ((c.error e).1, effs) ∧
        c.test_update_register = some (c, effs) ∧
        ((∃ x ∈ effs, x.isRequest = true) ↔ c._registered = true) ∧
        (c._registered = true →
          effs = [Effect.update_registration c._register_security 3600]) ∧
        (c._registered = false → effs = [])) := by
  refine ⟨error_client c e, ?_, ?_⟩
  · intro x hx
    obtain ⟨text, rfl⟩ := error_effects c e x hx
    exact ⟨rfl, rfl⟩
  · intro hrec
    obtain ⟨effs, h1, h2, h3, h4⟩ := test_update_register_of_guard c (receivable_guard hrec)
    have h0 : c._interface ≠ none ∨ c._registered = false := receivable_guard hrec
    have hg : ({ c with _error := true } : MbedClient)._interface ≠ none ∨
        ({ c with _error := true } : MbedClient)._registered = false := h0
    obtain ⟨effs1, g1, g2, g3, _⟩ := test_update_register_of_guard { c with _error := true } hg
    have he : effs1 = effs := by
      cases hr : c._registered with
      | false => rw [g3 hr, h3 hr]
      | true => rw [g2 hr, h2 hr]
    subst he
    refine ⟨effs1, ?_, h1, h4, h2, h3⟩
    rw [error_client]
    exact g1

/-- The statement above for the client of the program that `app_start` has
started and the server has registered, and the kind `Timeout`. -/
theorem error_then_update_witness :
    Receivable registeredWorld.client ∧
    registeredWorld.client._registered = true ∧
    (registeredWorld.client.error Error.Timeout).1._error = true ∧
    (registeredWorld.client.error Error.Timeout).1.test_update_register =
      some ((registeredWorld.client.error Error.Timeout).1,
        [Effect.update_registration (MbedClient.create_register_object Env.sample.cfg true)
          3600]) := by
  have hrec : Receivable registeredWorld.client := by
    rw [registeredWorld_client]; exact startedSample_receivable
  have hr : registeredWorld.client._registered = true := by
    set_option maxRecDepth 100000 in decide
  obtain ⟨h1, _, h3⟩ := error_then_update registeredWorld.client Error.Timeout
  obtain ⟨effs, g1, _, _, g4, _⟩ := h3 hrec
  refine ⟨hrec, hr, by rw [h1], ?_⟩
  rw [g1, g4 hr]
  set_option maxRecDepth 100000 in decide

/-! ## The periodic update task after unregistration -/

/-- C6 (counterexample): in the program started by `app_start`, after the
registration success and then the unregister-success notification, the
periodic update task posted at start-up is still among the pending tasks of
the scheduler, due at 25000 with period 25000. -/
theorem periodic_task_still_pending :
    { due := 25000, cb := Callback.test_update_register, period := some 25000 } ∈
      (registeredWorld.deliver Op.object_unregistered).sched.pending ∧
    (registeredWorld.deliver Op.object_unregistered).sched.pending =
      [{ due := 25000, cb := Callback.test_update_register, period := some 25000 },
       { due := 200, cb := Callback.disco 49 200, period := none }] ∧
    (registeredWorld.deliver Op.object_unregistered).client._unregistered = true := by
  set_option maxRecDepth 100000 in decide

/-- C6 (amended): the unregister-success notification cancels nothing. In
every state of the running program it leaves the pending tasks of the
scheduler exactly as they were, so a periodic update task that was pending
stays pending; it asks the scheduler to stop, after which the run loop invokes
no callback, so the task does not fire while the scheduler is stopped; and a
firing of `test_update_register` in the resulting state would issue no update
request, the registered flag being clear. -/
theorem object_unregistered_keeps_pending (w : World) (hc : w.crashed = false) :
    (w.deliver Op.object_unregistered).sched.pending = w.sched.pending ∧
    (w.deliver Op.object_unregistered).sched.stopped = true ∧
    (∀ n, ((w.deliver Op.object_unregistered).run n).fired = w.fired) ∧
    (w.deliver Op.object_unregistered).client.test_update_register =
      some ((w.deliver Op.object_unregistered).client, []) := by
  have hd := World.deliver_of_step w Op.object_unregistered _ _ hc rfl
  have hs : (w.deliver Op.object_unregistered).sched.stopped = true := by
    rw [hd, World.performAll_stopped]
    exact Or.inr (by simp [MbedClient.object_unregistered])
  refine ⟨?_, hs, ?_, ?_⟩
  · rw [hd, World.performAll_pending_of_no_post]
    intro e he cb d p
    simp [MbedClient.object_unregistered, MbedClient.trace_printer] at he
    rcases he with rfl | rfl | rfl <;> simp
  · intro n
    rw [World.run_of_stopped _ hs, hd, World.performAll_fired]
  · rw [hd, World.performAll_client]
    rfl

/-- The statement above in the program that `app_start` has started and the
server has registered. -/
theorem object_unregistered_keeps_pending_witness :
    registeredWorld.crashed = false ∧
    (registeredWorld.deliver Op.object_unregistered).sched.pending =
      registeredWorld.sched.pending ∧
    (registeredWorld.deliver Op.object_unregistered).sched.stopped = true ∧
    ((registeredWorld.deliver Op.object_unregistered).run 100).fired = registeredWorld.fired :=
  ⟨by set_option maxRecDepth 100000 in decide,
   (object_unregistered_keeps_pending registeredWorld
      (by set_option maxRecDepth 100000 in decide)).1,
   (object_unregistered_keeps_pending registeredWorld
      (by set_option maxRecDepth 100000 in decide)).2.1,
   (object_unregistered_keeps_pending registeredWorld
      (by set_option maxRecDepth 100000 in decide)).2.2.1 100⟩

end MbedConnector
